import Mathlib

/-!
Verification development for the nhl-no-ot-analyzer repository.

The scoring core (src/analyzer.py together with the constants of src/config.py
and the fetch helpers of src/data_fetcher.py) is embedded shallowly:

* Python floats become `ℚ` (every constant of config.py is a decimal with an
  exact rational value, and every claim under study is about the algebraic
  structure of the computation, not about binary rounding).
* Python's built-in `round` (round-half-to-even, "banker's rounding") becomes
  `pyRound` below.
* A fallible external call (an HTTP fetch that may raise after its retries are
  exhausted) is represented by an `Except Unit` value supplied by the caller:
  `Except.error ()` models the call raising, `Except.ok v` models it returning
  `v`.  Fetch helpers of data_fetcher.py that contain their own try/except are
  translated as total functions of that `Except` value; the analyzer function
  `compute_signals_for_matchup`, which contains no try/except, is translated as
  an `Except Unit`-valued function, so an uncaught fetch failure propagates to
  its caller exactly as a Python exception would.
* Python dict rows (games, standings entries, the signal mapping) become
  structures whose fields are the keys the code reads; keys that may be absent
  or `None` become `Option` fields.
-/

namespace NHL

/-! ### Constants from src/config.py (lines 18-73) -/

/-- config.py line 19: `H2H_LOOKBACK_GAMES_PRIMARY = 20`. -/
def H2H_LOOKBACK_GAMES_PRIMARY : ℕ := 20

/-- config.py line 20: `H2H_LOOKBACK_GAMES_FALLBACK = 10`. -/
def H2H_LOOKBACK_GAMES_FALLBACK : ℕ := 10

/-- config.py line 21: `H2H_OT_RATE_PENALTY_THRESHOLD = 0.20`. -/
def H2H_OT_RATE_PENALTY_THRESHOLD : ℚ := 1/5

/-- config.py line 22: `PLAYOFF_RIVALRY_LOOKBACK_SEASONS = 5`. -/
def PLAYOFF_RIVALRY_LOOKBACK_SEASONS : ℕ := 5

/-- config.py line 25: `EVENLY_MATCHED_STANDINGS_GAP_MAX_POINTS = 6`. -/
def EVENLY_MATCHED_STANDINGS_GAP_MAX_POINTS : ℤ := 6

/-- config.py line 26: `EVENLY_MATCHED_REG_WIN_PCT_DIFF_MAX = 0.05`. -/
def EVENLY_MATCHED_REG_WIN_PCT_DIFF_MAX : ℚ := 1/20

/-- config.py line 27: `EVENLY_MATCHED_XG_SHARE_DIFF_MAX = 0.06`. -/
def EVENLY_MATCHED_XG_SHARE_DIFF_MAX : ℚ := 3/50

/-- config.py line 30: `TEAM_OT_RATE_LOOKBACK_GAMES = 15`. -/
def TEAM_OT_RATE_LOOKBACK_GAMES : ℕ := 15

/-- config.py line 31: `TEAM_OT_RATE_BOTH_HIGH_THRESHOLD = 0.15`. -/
def TEAM_OT_RATE_BOTH_HIGH_THRESHOLD : ℚ := 3/20

/-- config.py line 42: `LOW_TOTAL_THRESHOLD = 5.5`. -/
def LOW_TOTAL_THRESHOLD : ℚ := 11/2

/-- The `WEIGHTS` dict of config.py (lines 46-63); each field is one key. -/
structure Weights where
  gf_diff : ℚ
  ga_diff : ℚ
  reg_win_diff : ℚ
  avg_team_ot_inv : ℚ
  goalie_boost : ℚ
  head2head_penalty : ℚ
  evenly_matched_penalty : ℚ
  back_to_back_penalty : ℚ
  low_total_penalty : ℚ
  special_teams_mismatch : ℚ
  both_teams_high_ot_multiplier : ℚ

/-- config.py lines 46-63: the `WEIGHTS` values.  Decimal literals of the
source are written as their exact fractions (1.3 = 13/10, 0.85 = 17/20, ...). -/
def WEIGHTS : Weights :=
  { gf_diff := 1
    ga_diff := 4/5
    reg_win_diff := 13/10
    avg_team_ot_inv := 7/10
    goalie_boost := 4/5
    head2head_penalty := -(4/5)
    evenly_matched_penalty := -(6/5)
    back_to_back_penalty := -(3/5)
    low_total_penalty := -(1/2)
    special_teams_mismatch := 2/5
    both_teams_high_ot_multiplier := 17/20 }

/-- config.py line 66: `SCORE_MIN = -5.0`. -/
def SCORE_MIN : ℚ := -5

/-- config.py line 67: `SCORE_MAX = 5.0`. -/
def SCORE_MAX : ℚ := 5

/-- config.py line 70: `SKIP_IF_RIVALRY_OR_EVEN = False`. -/
def SKIP_IF_RIVALRY_OR_EVEN : Bool := false

/-! ### Python's `round` builtin

CPython's `round` on a float rounds half to even.  `int(round(x))` in the
sources is therefore `pyRound` applied to the exact rational value. -/

/-- Round half to even, the behaviour of Python's builtin `round`. -/
def pyRound (q : ℚ) : ℤ :=
  if q - ⌊q⌋ < 1/2 then ⌊q⌋
  else if 1/2 < q - ⌊q⌋ then ⌊q⌋ + 1
  else if ⌊q⌋ % 2 = 0 then ⌊q⌋ else ⌊q⌋ + 1

theorem floor_le_pyRound (q : ℚ) : ⌊q⌋ ≤ pyRound q := by
  unfold pyRound; split_ifs <;> omega

theorem pyRound_le_floor_add_one (q : ℚ) : pyRound q ≤ ⌊q⌋ + 1 := by
  unfold pyRound; split_ifs <;> omega

theorem le_pyRound_of_le {n : ℤ} {q : ℚ} (h : (n : ℚ) ≤ q) : n ≤ pyRound q :=
  le_trans (Int.le_floor.mpr h) (floor_le_pyRound q)

theorem pyRound_le_of_le {n : ℤ} {q : ℚ} (h : q ≤ (n : ℚ)) : pyRound q ≤ n := by
  have hfl : ⌊q⌋ ≤ n := by
    have h1 : ⌊q⌋ ≤ ⌊(n : ℚ)⌋ := Int.floor_le_floor h
    simpa using h1
  unfold pyRound
  split_ifs with h1 h2 h3
  · exact hfl
  · have hq : (⌊q⌋ : ℚ) + 1/2 < q := by linarith
    have hlt : (⌊q⌋ : ℚ) < (n : ℚ) := by linarith
    have : ⌊q⌋ < n := by exact_mod_cast hlt
    omega
  · exact hfl
  · have hq : (⌊q⌋ : ℚ) + 1/2 ≤ q := by linarith
    have hlt : (⌊q⌋ : ℚ) < (n : ℚ) := by linarith
    have : ⌊q⌋ < n := by exact_mod_cast hlt
    omega

theorem pyRound_mono {a b : ℚ} (hab : a ≤ b) : pyRound a ≤ pyRound b := by
  have hf : ⌊a⌋ ≤ ⌊b⌋ := Int.floor_le_floor hab
  rcases lt_or_eq_of_le hf with hlt | heq
  · calc pyRound a ≤ ⌊a⌋ + 1 := pyRound_le_floor_add_one a
      _ ≤ ⌊b⌋ := by omega
      _ ≤ pyRound b := floor_le_pyRound b
  · unfold pyRound
    rw [← heq]
    have hfr : a - (⌊a⌋ : ℚ) ≤ b - (⌊a⌋ : ℚ) := by linarith
    split_ifs <;> first | omega | (exfalso; linarith)

/-! ### Data model -/

/-- One historical game row, holding exactly what the analyzer reads of the
NHL-API game dict: the length of `linescore.periods`, the truthiness of
`linescore.hasShootout`, and the two (possibly absent) final scores. -/
structure Game where
  periods : ℕ
  hasShootout : Bool
  awayScore : Option ℤ
  homeScore : Option ℤ
deriving DecidableEq

/-- One standings row as built by `fetch_standings` (data_fetcher.py lines
97-104) and read by the analyzer: `points` (read through `.get("points", 0)`),
`regulationWins` and `gamesPlayed` (read through `... or 0`), and the two
special-teams percentages, which the upstream feed may omit. -/
structure StandingRec where
  points : ℤ
  regulationWins : Option ℤ
  gamesPlayed : Option ℤ
  ppPct : Option ℚ
  pkPct : Option ℚ
deriving DecidableEq

/-- The part of the schedule game dict that `compute_signals_for_matchup`
reads: the away and home team ids (`game["teams"][side]["team"]["id"]`).
`gamePk` and `gameDate` feed only the external days-rest lookups, whose
results are supplied through `FetchEnv`. -/
structure Matchup where
  away : ℤ
  home : ℤ
deriving DecidableEq

/-- The SignalSet: the dict returned by `compute_signals_for_matchup`
(analyzer.py lines 167-189), one field per key. -/
structure Signals where
  away_id : ℤ
  home_id : ℤ
  head2head_OT_rate : ℚ
  head2head_avg_goal_margin : ℚ
  playoff_rivalry_flag : Bool
  standings_gap : ℤ
  regulation_win_pct_diff : ℚ
  xg_share_diff : Option ℚ
  special_teams_mismatch : Option ℚ
  evenly_matched : Bool
  team_OT_rate_last_15_away : ℚ
  team_OT_rate_last_15_home : ℚ
  days_rest_away : Option ℤ
  days_rest_home : Option ℤ
  back_to_back_away : Bool
  back_to_back_home : Bool
  goalie_status_away : String
  goalie_status_home : String
  implied_total : Option ℚ
  data_confidence : ℤ
  reason : String
deriving DecidableEq

instance : Inhabited Signals :=
  ⟨{ away_id := 0, home_id := 0, head2head_OT_rate := 0,
     head2head_avg_goal_margin := 0, playoff_rivalry_flag := false,
     standings_gap := 0, regulation_win_pct_diff := 0, xg_share_diff := none,
     special_teams_mismatch := none, evenly_matched := false,
     team_OT_rate_last_15_away := 0, team_OT_rate_last_15_home := 0,
     days_rest_away := none, days_rest_home := none, back_to_back_away := false,
     back_to_back_home := false, goalie_status_away := "unknown",
     goalie_status_home := "unknown", implied_total := none,
     data_confidence := 0, reason := "" }⟩

/-- The dict returned by `score_matchup` (analyzer.py line 229): the input
SignalSet plus the keys `score` and `confidence`. -/
structure ScoredSignals extends Signals where
  score : ℚ
  confidence : ℤ

/-! ### Helper functions of src/analyzer.py -/

/-- analyzer.py lines 29-30: `_pct(n, d) = (n / d) if d else 0.0`. -/
def _pct (n d : ℚ) : ℚ :=
  if d = 0 then 0 else n / d

/-- analyzer.py lines 33-42, `_compute_ot_rate_from_games`: the loop counts a
game when `len(periods) > 3 or linescore.get("hasShootout")`, and increments
the total for every game; the result is `_pct(ot_count, total)`. -/
def _compute_ot_rate_from_games (games : List Game) : ℚ :=
  let counts := games.foldl
    (fun (acc : ℕ × ℕ) g =>
      (if 3 < g.periods ∨ g.hasShootout = true then acc.1 + 1 else acc.1,
       acc.2 + 1))
    (0, 0)
  _pct (counts.1 : ℚ) (counts.2 : ℚ)

/-- analyzer.py lines 45-56, `_avg_goal_margin`: absolute score differences of
the games with both scores present; mean of those, or 0.0 if none qualify. -/
def _avg_goal_margin (games : List Game) : ℚ :=
  let margins := games.filterMap
    (fun g =>
      match g.awayScore, g.homeScore with
      | some a, some h => some |a - h|
      | _, _ => none)
  if margins = [] then 0 else ((margins.sum : ℤ) : ℚ) / (margins.length : ℚ)

/-- analyzer.py lines 59-64, `_regulation_win_pct`: 0.0 for a missing entry,
else `_pct(regulationWins or 0, gamesPlayed or 0)`. -/
def _regulation_win_pct (standings_entry : Option StandingRec) : ℚ :=
  match standings_entry with
  | none => 0
  | some e => _pct ((e.regulationWins.getD 0 : ℤ) : ℚ) ((e.gamesPlayed.getD 0 : ℤ) : ℚ)

/-- Python's `max(candidates)` guarded by `if candidates:` — `none` on the
empty list, else the maximum. -/
def listMax (l : List ℚ) : Option ℚ :=
  match l with
  | [] => none
  | x :: xs => some (xs.foldl max x)

/-- analyzer.py lines 102-112: the special-teams-mismatch computation.  A
candidate `abs(pp - pk) / 100` is appended for each of the two pairings whose
two fields are both present; the signal is the max of the candidates, or
`None` when there is no candidate.  (The surrounding try/except guards only
the `float(...)` conversions, which cannot fail on numeric fields.) -/
def specialTeamsMismatch (pp_home pk_away pp_away pk_home : Option ℚ) : Option ℚ :=
  let candidates : List ℚ :=
    (match pp_home, pk_away with
      | some a, some b => [|a - b| / 100]
      | _, _ => []) ++
    (match pp_away, pk_home with
      | some c, some d => [|c - d| / 100]
      | _, _ => [])
  listMax candidates

/-- analyzer.py lines 151-157: the data-confidence checklist.  `h2h`,
`last_home` and `last_away` are genuine Python lists at this point, so their
`is not None` flags are the literal `true` entries, as is the constant `True`
placeholder item. -/
def dataConfidence (h2h last_home last_away : List Game)
    (s_home s_away : Option StandingRec)
    (implied_total xg_share_diff : Option ℚ) : ℤ :=
  let flags : List Bool :=
    [true, true, s_home.isSome, s_away.isSome, true, true,
     implied_total.isSome, xg_share_diff.isSome]
  let available := flags.countP (fun b => b)
  pyRound (100 * _pct (available : ℚ) ((8 : ℕ) : ℚ))

/-! ### Fetch helpers of src/data_fetcher.py

Each helper is a function of the outcome of its external call; `Except.error ()`
models the call raising an unrecoverable exception. -/

/-- data_fetcher.py lines 153-171, `fetch_playoff_series_last_n_seasons`: the
whole playoff-bracket scan sits inside `try: ... except Exception: return
False`, so a raising scan degrades to `False`. -/
def fetch_playoff_series_last_n_seasons (scan : Except Unit Bool) : Bool :=
  match scan with
  | .ok b => b
  | .error _ => false

/-- data_fetcher.py lines 187-199, `compute_days_rest`: the inner fetch and
date scan sit inside `try: ... except Exception: return None`, so a raising
lookup degrades to `None`. -/
def compute_days_rest (raw : Except Unit (Option ℤ)) : Option ℤ :=
  match raw with
  | .ok v => v
  | .error _ => none

/-- data_fetcher.py lines 202-206, `game_implied_total_from_odds`: `None` for
missing/falsy odds, else `odds.get("total")` (itself possibly absent). -/
def game_implied_total_from_odds (odds : Option (Option ℚ)) : Option ℚ :=
  match odds with
  | none => none
  | some total => total

/-! ### The Scorer: `score_matchup` (analyzer.py lines 192-229) -/

/-- analyzer.py lines 192-223: the raw accumulated score.  Each `let score :=`
step is one `score +=` (or the guarded `score *=`) statement of the source, in
source order.  Every `signals.get(key, default)` is a field read, since the
SignalSet always carries all keys. -/
def rawScore (signals : Signals) : ℚ :=
  let gf_diff : ℚ := 0
  let ga_diff : ℚ := 0
  let reg_win_diff := signals.regulation_win_pct_diff
  let avg_team_ot_inv :=
    1 - ((signals.team_OT_rate_last_15_away + signals.team_OT_rate_last_15_home) / 2)
  let score : ℚ := 0
  let score := score + WEIGHTS.gf_diff * gf_diff
  let score := score + WEIGHTS.ga_diff * ga_diff
  let score := score + WEIGHTS.reg_win_diff * (1 - reg_win_diff)
  let score := score + WEIGHTS.avg_team_ot_inv * avg_team_ot_inv
  let score :=
    if signals.head2head_OT_rate > H2H_OT_RATE_PENALTY_THRESHOLD
    then score + WEIGHTS.head2head_penalty else score
  let score :=
    if signals.evenly_matched
    then score + WEIGHTS.evenly_matched_penalty else score
  let score :=
    if signals.back_to_back_away || signals.back_to_back_home
    then score + WEIGHTS.back_to_back_penalty else score
  let score :=
    match signals.implied_total with
    | some t => if t ≤ LOW_TOTAL_THRESHOLD then score + WEIGHTS.low_total_penalty else score
    | none => score
  let score :=
    match signals.special_teams_mismatch with
    | some m => score + WEIGHTS.special_teams_mismatch * m
    | none => score
  let score :=
    if signals.team_OT_rate_last_15_away > TEAM_OT_RATE_BOTH_HIGH_THRESHOLD
        ∧ signals.team_OT_rate_last_15_home > TEAM_OT_RATE_BOTH_HIGH_THRESHOLD
    then score * WEIGHTS.both_teams_high_ot_multiplier else score
  score

/-- analyzer.py line 226: `clipped = max(SCORE_MIN, min(SCORE_MAX, score))`. -/
def clipScore (score : ℚ) : ℚ :=
  max SCORE_MIN (min SCORE_MAX score)

/-- analyzer.py line 227:
`confidence = int(round(100 * (clipped - SCORE_MIN) / (SCORE_MAX - SCORE_MIN)))`. -/
def confidenceFrom (score : ℚ) : ℤ :=
  pyRound (100 * (clipScore score - SCORE_MIN) / (SCORE_MAX - SCORE_MIN))

/-- analyzer.py line 229:
`return {**signals, "score": score, "confidence": confidence}`. -/
def scoreMatchup (signals : Signals) : ScoredSignals :=
  let score := rawScore signals
  { toSignals := signals, score := score, confidence := confidenceFrom score }

/-- analyzer.py lines 232-235, `should_skip`.  The module-global
`SKIP_IF_RIVALRY_OR_EVEN` is passed explicitly as `flag`; the program runs it
at the config value `SKIP_IF_RIVALRY_OR_EVEN = false`. -/
def shouldSkip (flag : Bool) (signals : Signals) : Bool :=
  if !flag then false
  else signals.evenly_matched || signals.playoff_rivalry_flag ||
    decide (signals.head2head_OT_rate > H2H_OT_RATE_PENALTY_THRESHOLD)

/-! ### The Signal Extractor: `compute_signals_for_matchup`
(analyzer.py lines 67-189) -/

/-- Outcomes of the external calls `compute_signals_for_matchup` performs, in
the order the source performs them.  `h2hPrimary`/`h2hFallback` are the two
possible `fetch_head_to_head` calls (lines 85-87), `rivalryScan` is the
playoff-bracket scan inside `fetch_playoff_series_last_n_seasons` (line 90),
`lastGamesAway`/`lastGamesHome` are the `fetch_team_last_games` calls (lines
132-133), and `daysRestAwayRaw`/`daysRestHomeRaw` are the guarded bodies of the
two `compute_days_rest` calls (lines 138-139). -/
structure FetchEnv where
  h2hPrimary : Except Unit (List Game)
  h2hFallback : Except Unit (List Game)
  rivalryScan : Except Unit Bool
  lastGamesAway : Except Unit (List Game)
  lastGamesHome : Except Unit (List Game)
  daysRestAwayRaw : Except Unit (Option ℤ)
  daysRestHomeRaw : Except Unit (Option ℤ)

/-- Reason-string fragment of analyzer.py line 161. -/
def h2hReasonString (p : ℤ) (n : ℕ) : String :=
  "Head-to-head OT " ++ toString p ++ "% last " ++ toString n

/-- The purely local part of `compute_signals_for_matchup` (analyzer.py lines
88-189), taking the already-resolved fetch results: the head-to-head sample
`h2h` (after the primary/fallback choice of lines 85-87), the two recent-game
samples, and the raw outcomes of the rivalry scan and the two days-rest
lookups (whose catch-and-degrade happens in their data_fetcher helpers). -/
def computeSignalsCore (game : Matchup) (standings : ℤ → Option StandingRec)
    (odds : Option (Option ℚ)) (xg_share_last10 : Option (ℤ → Option ℚ))
    (h2h last_away last_home : List Game)
    (rivalryScan : Except Unit Bool)
    (daysRestAwayRaw daysRestHomeRaw : Except Unit (Option ℤ)) : Signals :=
  let home := game.home
  let away := game.away
  let head2head_ot_rate := _compute_ot_rate_from_games h2h
  let head2head_avg_goal_margin := _avg_goal_margin h2h
  let playoff_rivalry_flag := fetch_playoff_series_last_n_seasons rivalryScan
  let s_away := standings away
  let s_home := standings home
  let standings_gap :=
    |((s_home.map StandingRec.points).getD 0) - ((s_away.map StandingRec.points).getD 0)|
  let reg_win_pct_diff :=
    |_regulation_win_pct s_home - _regulation_win_pct s_away|
  let pp_home := s_home.bind StandingRec.ppPct
  let pk_away := s_away.bind StandingRec.pkPct
  let pp_away := s_away.bind StandingRec.ppPct
  let pk_home := s_home.bind StandingRec.pkPct
  let special_teams_mismatch := specialTeamsMismatch pp_home pk_away pp_away pk_home
  let xg_share_diff : Option ℚ :=
    match xg_share_last10 with
    | some f =>
        if (f away).isSome && (f home).isSome
        then some |(f home).getD 0 - (f away).getD 0| else none
    | none => none
  let evenly_matched : Bool :=
    match xg_share_diff with
    | some x =>
        decide (standings_gap < EVENLY_MATCHED_STANDINGS_GAP_MAX_POINTS) &&
        decide (reg_win_pct_diff < EVENLY_MATCHED_REG_WIN_PCT_DIFF_MAX) &&
        decide (x < EVENLY_MATCHED_XG_SHARE_DIFF_MAX)
    | none =>
        decide (standings_gap < EVENLY_MATCHED_STANDINGS_GAP_MAX_POINTS) &&
        decide (reg_win_pct_diff < EVENLY_MATCHED_REG_WIN_PCT_DIFF_MAX)
  let team_ot_rate_away := _compute_ot_rate_from_games last_away
  let team_ot_rate_home := _compute_ot_rate_from_games last_home
  let days_rest_away := compute_days_rest daysRestAwayRaw
  let days_rest_home := compute_days_rest daysRestHomeRaw
  let back_to_back_away :=
    match days_rest_away with | some d => decide (d = 0) | none => false
  let back_to_back_home :=
    match days_rest_home with | some d => decide (d = 0) | none => false
  let goalie_status_home := "unknown"
  let goalie_status_away := "unknown"
  let implied_total := game_implied_total_from_odds odds
  let data_confidence :=
    dataConfidence h2h last_home last_away s_home s_away implied_total xg_share_diff
  let reason_bits : List String :=
    (if head2head_ot_rate > H2H_OT_RATE_PENALTY_THRESHOLD
     then [h2hReasonString (pyRound (100 * head2head_ot_rate)) h2h.length] else []) ++
    (if playoff_rivalry_flag then ["Recent playoffs met"] else []) ++
    (if evenly_matched then ["Evenly matched by standings/reg wins/xG"] else [])
  let sep : String := "; "
  { away_id := away
    home_id := home
    head2head_OT_rate := head2head_ot_rate
    head2head_avg_goal_margin := head2head_avg_goal_margin
    playoff_rivalry_flag := playoff_rivalry_flag
    standings_gap := standings_gap
    regulation_win_pct_diff := reg_win_pct_diff
    xg_share_diff := xg_share_diff
    special_teams_mismatch := special_teams_mismatch
    evenly_matched := evenly_matched
    team_OT_rate_last_15_away := team_ot_rate_away
    team_OT_rate_last_15_home := team_ot_rate_home
    days_rest_away := days_rest_away
    days_rest_home := days_rest_home
    back_to_back_away := back_to_back_away
    back_to_back_home := back_to_back_home
    goalie_status_away := goalie_status_away
    goalie_status_home := goalie_status_home
    implied_total := implied_total
    data_confidence := data_confidence
    reason := String.intercalate sep reason_bits }

/-- analyzer.py lines 67-189, `compute_signals_for_matchup`.  The function
contains no try/except of its own, so the head-to-head fetches (lines 85-87)
and the recent-game fetches (lines 132-133) propagate their exceptions to the
caller; that is the monadic binds below.  All steps between those fetches are
pure and cannot fail, so gathering them in `computeSignalsCore` after the last
bind preserves the function's value. -/
def computeSignalsE (game : Matchup) (standings : ℤ → Option StandingRec)
    (odds : Option (Option ℚ)) (xg_share_last10 : Option (ℤ → Option ℚ))
    (env : FetchEnv) : Except Unit Signals := do
  let h2h0 ← env.h2hPrimary
  let h2h ←
    if h2h0.length < H2H_LOOKBACK_GAMES_FALLBACK then env.h2hFallback else pure h2h0
  let last_away ← env.lastGamesAway
  let last_home ← env.lastGamesHome
  pure (computeSignalsCore game standings odds xg_share_last10 h2h last_away last_home
    env.rivalryScan env.daysRestAwayRaw env.daysRestHomeRaw)

/-! ### Helper lemmas about the scorer -/

/-- The additive part of the score: the weighted base terms, every
threshold-triggered penalty, and the special-teams bonus, written as one sum
of independent contributions. -/
def additiveScore (s : Signals) : ℚ :=
  WEIGHTS.gf_diff * 0 + WEIGHTS.ga_diff * 0
  + WEIGHTS.reg_win_diff * (1 - s.regulation_win_pct_diff)
  + WEIGHTS.avg_team_ot_inv *
      (1 - (s.team_OT_rate_last_15_away + s.team_OT_rate_last_15_home) / 2)
  + (if s.head2head_OT_rate > H2H_OT_RATE_PENALTY_THRESHOLD
     then WEIGHTS.head2head_penalty else 0)
  + (if s.evenly_matched then WEIGHTS.evenly_matched_penalty else 0)
  + (if s.back_to_back_away || s.back_to_back_home
     then WEIGHTS.back_to_back_penalty else 0)
  + (match s.implied_total with
     | some t => if t ≤ LOW_TOTAL_THRESHOLD then WEIGHTS.low_total_penalty else 0
     | none => 0)
  + (match s.special_teams_mismatch with
     | some m => WEIGHTS.special_teams_mismatch * m
     | none => 0)

/-- The sequential accumulation of `score_matchup` equals the additive sum,
with the dampening multiplier applied last to the whole of it exactly when
both recent-form OT rates exceed the both-high threshold. -/
lemma rawScore_eq (s : Signals) :
    rawScore s =
      if s.team_OT_rate_last_15_away > TEAM_OT_RATE_BOTH_HIGH_THRESHOLD
          ∧ s.team_OT_rate_last_15_home > TEAM_OT_RATE_BOTH_HIGH_THRESHOLD
      then additiveScore s * WEIGHTS.both_teams_high_ot_multiplier
      else additiveScore s := by
  rcases s with ⟨aid, hid, h2h, margin, riv, gap, regd, xgd, stm, evn, ota, oth,
    dra, drh, bba, bbh, ga, gh, it, dc, rsn⟩
  rcases it with _ | t <;> rcases stm with _ | m <;>
    simp only [rawScore, additiveScore] <;> split_ifs <;> ring

/-- Evaluation rule for `pyRound` when the fractional part is below one half. -/
lemma pyRound_of_lt_half {q : ℚ} {f : ℤ} (hf : ⌊q⌋ = f) (h : q - f < 1/2) :
    pyRound q = f := by
  unfold pyRound
  rw [hf]
  rw [if_pos h]

/-- Evaluation rule for `pyRound` at a tie with an even floor. -/
lemma pyRound_of_half_even {q : ℚ} {f : ℤ} (hf : ⌊q⌋ = f) (h : q - f = 1/2)
    (he : f % 2 = 0) : pyRound q = f := by
  unfold pyRound
  rw [hf]
  rw [if_neg (by rw [h]; norm_num), if_neg (by rw [h]; norm_num), if_pos he]

/-- Evaluation rule for `pyRound` at a tie with an odd floor. -/
lemma pyRound_of_half_odd {q : ℚ} {f : ℤ} (hf : ⌊q⌋ = f) (h : q - f = 1/2)
    (ho : ¬ f % 2 = 0) : pyRound q = f + 1 := by
  unfold pyRound
  rw [hf]
  rw [if_neg (by rw [h]; norm_num), if_neg (by rw [h]; norm_num), if_neg ho]

lemma clipScore_ge (x : ℚ) : SCORE_MIN ≤ clipScore x := le_max_left _ _

lemma clipScore_le (x : ℚ) : clipScore x ≤ SCORE_MAX :=
  max_le (by norm_num [SCORE_MIN, SCORE_MAX]) (min_le_left _ _)

lemma clipScore_mono {x y : ℚ} (h : x ≤ y) : clipScore x ≤ clipScore y :=
  max_le_max le_rfl (min_le_min le_rfl h)

lemma confidenceFrom_nonneg (x : ℚ) : 0 ≤ confidenceFrom x := by
  unfold confidenceFrom
  refine le_pyRound_of_le ?_
  have h := clipScore_ge x
  rw [SCORE_MIN, SCORE_MAX] at *
  push_cast
  linarith

lemma confidenceFrom_le_100 (x : ℚ) : confidenceFrom x ≤ 100 := by
  unfold confidenceFrom
  refine pyRound_le_of_le ?_
  have h := clipScore_le x
  rw [SCORE_MIN, SCORE_MAX] at *
  push_cast
  linarith

lemma confidenceFrom_mono {x y : ℚ} (h : x ≤ y) :
    confidenceFrom x ≤ confidenceFrom y := by
  unfold confidenceFrom
  refine pyRound_mono ?_
  have hc := clipScore_mono h
  rw [SCORE_MIN, SCORE_MAX]
  linarith

/-- Raising the head-to-head OT rate across the penalty threshold adds exactly
the (negative) head-to-head penalty to the additive sum. -/
lemma additiveScore_update_high_low (s : Signals) {lo hi : ℚ}
    (hlo : lo ≤ H2H_OT_RATE_PENALTY_THRESHOLD)
    (hhi : hi > H2H_OT_RATE_PENALTY_THRESHOLD) :
    additiveScore { s with head2head_OT_rate := hi } =
      additiveScore { s with head2head_OT_rate := lo } + WEIGHTS.head2head_penalty := by
  simp only [additiveScore]
  rw [if_pos hhi, if_neg (not_lt.mpr hlo)]
  ring

lemma rawScore_update_le (s : Signals) {lo hi : ℚ}
    (hlo : lo ≤ H2H_OT_RATE_PENALTY_THRESHOLD)
    (hhi : hi > H2H_OT_RATE_PENALTY_THRESHOLD) :
    rawScore { s with head2head_OT_rate := hi } ≤
      rawScore { s with head2head_OT_rate := lo } := by
  rw [rawScore_eq, rawScore_eq]
  rw [additiveScore_update_high_low s hlo hhi]
  simp only [WEIGHTS]
  split_ifs <;> linarith

/-! ### Helper lemmas about the extractor -/

/-- The OT-rate fold accumulates the count of matching games and the length. -/
lemma ot_fold_counts (games : List Game) : ∀ a b : ℕ,
    games.foldl
      (fun (acc : ℕ × ℕ) g =>
        (if 3 < g.periods ∨ g.hasShootout = true then acc.1 + 1 else acc.1,
         acc.2 + 1)) (a, b) =
      (a + games.countP (fun g => decide (3 < g.periods) || g.hasShootout),
       b + games.length) := by
  induction games with
  | nil => intro a b; simp
  | cons g gs ih =>
      intro a b
      rw [List.foldl_cons, List.countP_cons, List.length_cons]
      by_cases h : 3 < g.periods ∨ g.hasShootout = true
      · have hb : (decide (3 < g.periods) || g.hasShootout) = true := by
          rcases h with h | h <;> simp [h]
        simp only [if_pos h, ih, hb, if_true, Prod.mk.injEq]
        norm_num
        omega
      · have hb : (decide (3 < g.periods) || g.hasShootout) = false := by
          push_neg at h
          simp [h.1, h.2]
        simp only [if_neg h, ih, hb, Bool.false_eq_true, if_false, Prod.mk.injEq]
        norm_num
        omega

/-- Full characterisation of the source's special-teams computation: one
absolute-difference candidate per available pairing, max of the candidates,
`none` exactly when neither pairing is complete. -/
lemma specialTeamsMismatch_eq (pp_home pk_away pp_away pk_home : Option ℚ) :
    specialTeamsMismatch pp_home pk_away pp_away pk_home =
      match pp_home, pk_away, pp_away, pk_home with
      | some a, some b, some c, some d => some (max (|a - b| / 100) (|c - d| / 100))
      | some a, some b, _, _ => some (|a - b| / 100)
      | _, _, some c, some d => some (|c - d| / 100)
      | _, _, _, _ => none := by
  rcases pp_home with _ | a <;> rcases pk_away with _ | b <;>
    rcases pp_away with _ | c <;> rcases pk_home with _ | d <;> rfl

/-- Four checklist items are constant, so the data confidence is one of the
five values 50, 62, 75, 88, 100 — in particular at least 50. -/
lemma dataConfidence_range (h2h lh la : List Game) (sh sa : Option StandingRec)
    (it xd : Option ℚ) :
    (dataConfidence h2h lh la sh sa it xd = 50 ∨
     dataConfidence h2h lh la sh sa it xd = 62 ∨
     dataConfidence h2h lh la sh sa it xd = 75 ∨
     dataConfidence h2h lh la sh sa it xd = 88 ∨
     dataConfidence h2h lh la sh sa it xd = 100) ∧
    50 ≤ dataConfidence h2h lh la sh sa it xd := by
  have e50 : pyRound (100 * _pct 4 8) = 50 := by
    have h : (100 * _pct 4 8 : ℚ) = 50 := by norm_num [_pct]
    rw [h]
    exact pyRound_of_lt_half (by rw [Int.floor_eq_iff]; norm_num) (by norm_num)
  have e62 : pyRound (100 * _pct 5 8) = 62 := by
    have h : (100 * _pct 5 8 : ℚ) = 125/2 := by norm_num [_pct]
    rw [h]
    exact pyRound_of_half_even (by rw [Int.floor_eq_iff]; norm_num) (by norm_num)
      (by norm_num)
  have e75 : pyRound (100 * _pct 6 8) = 75 := by
    have h : (100 * _pct 6 8 : ℚ) = 75 := by norm_num [_pct]
    rw [h]
    exact pyRound_of_lt_half (by rw [Int.floor_eq_iff]; norm_num) (by norm_num)
  have e88 : pyRound (100 * _pct 7 8) = 88 := by
    have h : (100 * _pct 7 8 : ℚ) = 175/2 := by norm_num [_pct]
    rw [h]
    have h2 := pyRound_of_half_odd (q := 175/2) (f := 87)
      (by rw [Int.floor_eq_iff]; norm_num) (by norm_num) (by norm_num)
    omega
  have e100 : pyRound (100 * _pct 8 8) = 100 := by
    have h : (100 * _pct 8 8 : ℚ) = 100 := by norm_num [_pct]
    rw [h]
    exact pyRound_of_lt_half (by rw [Int.floor_eq_iff]; norm_num) (by norm_num)
  rcases sh with _ | sh <;> rcases sa with _ | sa <;>
    rcases it with _ | it <;> rcases xd with _ | xd <;>
    simp only [dataConfidence, Option.isSome_none, Option.isSome_some,
      List.countP, List.countP.go] <;>
    norm_num <;>
    simp_all

/-- Every successful run of the extractor returns a `computeSignalsCore` value
at the resolved fetch results. -/
lemma computeSignalsE_shape (game : Matchup) (standings : ℤ → Option StandingRec)
    (odds : Option (Option ℚ)) (xg : Option (ℤ → Option ℚ))
    (hp hf lga lgh : Except Unit (List Game)) (rs : Except Unit Bool)
    (dra drh : Except Unit (Option ℤ)) (s : Signals)
    (hok : computeSignalsE game standings odds xg ⟨hp, hf, rs, lga, lgh, dra, drh⟩ = .ok s) :
    ∃ h2h la lh : List Game,
      s = computeSignalsCore game standings odds xg h2h la lh rs dra drh := by
  rcases hp with _ | l1 <;>
    rcases hf with _ | l2 <;>
    rcases lga with _ | la <;>
    rcases lgh with _ | lh <;>
    simp only [computeSignalsE, Bind.bind, Except.bind, Pure.pure, Except.pure] at hok <;>
    first
      | (split at hok <;>
          first
            | exact Except.noConfusion hok
            | exact ⟨_, _, _, (Except.ok.injEq _ _ ▸ hok :
                computeSignalsCore _ _ _ _ _ _ _ _ _ _ = s).symm⟩)
      | exact Except.noConfusion hok

/-! ### Concrete inputs used by witnesses and counterexamples -/

/-- A matchup with away team 1 and home team 2. -/
def mC : Matchup := { away := 1, home := 2 }

/-- An empty standings snapshot. -/
def standingsC : ℤ → Option StandingRec := fun _ => none

/-- All external calls succeed with empty/neutral results. -/
def envOk : FetchEnv :=
  { h2hPrimary := .ok [], h2hFallback := .ok [], rivalryScan := .ok false,
    lastGamesAway := .ok [], lastGamesHome := .ok [],
    daysRestAwayRaw := .ok none, daysRestHomeRaw := .ok none }

/-- Projection out of a successful extractor run. -/
def okSignals (e : Except Unit Signals) : Signals :=
  match e with
  | .ok s => s
  | .error _ => default

/-- The extractor's output on `mC`, `standingsC`, no odds, no shot-share data. -/
def sC : Signals := okSignals (computeSignalsE mC standingsC none none envOk)

lemma sC_core : sC = computeSignalsCore mC standingsC none none [] [] []
    (Except.ok false) (Except.ok none) (Except.ok none) := rfl

/-- Standings in which both teams have power-play 10 and penalty-kill 90. -/
def standingsC2 : ℤ → Option StandingRec := fun t =>
  if t = 1 then
    some { points := 0, regulationWins := none, gamesPlayed := none,
           ppPct := some 10, pkPct := some 90 }
  else if t = 2 then
    some { points := 0, regulationWins := none, gamesPlayed := none,
           ppPct := some 10, pkPct := some 90 }
  else none

/-- The extractor's output on the `standingsC2` snapshot. -/
def sC2 : Signals := okSignals (computeSignalsE mC standingsC2 none none envOk)

/-- Standings in which only the home power-play and the away penalty-kill are
known; the other pairing is incomplete. -/
def standingsC2b : ℤ → Option StandingRec := fun t =>
  if t = 1 then
    some { points := 0, regulationWins := none, gamesPlayed := none,
           ppPct := none, pkPct := some 90 }
  else if t = 2 then
    some { points := 0, regulationWins := none, gamesPlayed := none,
           ppPct := some 10, pkPct := none }
  else none

/-- Modelled from the claim's words for C2 (signed differences, absent as soon
as any of the four fields is missing), for comparison against the source
computation `specialTeamsMismatch`. -/
def specialTeamsMismatchClaim (pp_home pk_away pp_away pk_home : Option ℚ) : Option ℚ :=
  match pp_home, pk_away, pp_away, pk_home with
  | some a, some b, some c, some d => some (max ((a - b) / 100) ((c - d) / 100))
  | _, _, _, _ => none

/-- The signal set the unit test `make_signals` builds (test_head2head_penalty.py
lines 6-28), parametric in the head-to-head OT rate. -/
def testSignals (h2h_rate : ℚ) : Signals :=
  { away_id := 1, home_id := 2, head2head_OT_rate := h2h_rate,
    head2head_avg_goal_margin := 1, playoff_rivalry_flag := false,
    standings_gap := 2, regulation_win_pct_diff := 1/50,
    xg_share_diff := some (3/100), special_teams_mismatch := none,
    evenly_matched := false, team_OT_rate_last_15_away := 1/10,
    team_OT_rate_last_15_home := 1/10, days_rest_away := some 1,
    days_rest_home := some 1, back_to_back_away := false, back_to_back_home := false,
    goalie_status_away := "unknown", goalie_status_home := "unknown",
    implied_total := some 6, data_confidence := 100, reason := "" }

/-! ### The claims -/

/-- Claim C1: for every signal set, the returned confidence is an integer in
[0, 100], obtained by clipping the raw accumulated score to the closed
interval [SCORE_MIN, SCORE_MAX] = [-5, 5] and mapping linearly with
`confidence = round(100 * (clipped - SCORE_MIN) / (SCORE_MAX - SCORE_MIN))`,
where `round` is Python's round-half-to-even. -/
theorem C1_confidence_clip_round_bounds (s : Signals) :
    (scoreMatchup s).confidence =
      pyRound (100 * (clipScore (scoreMatchup s).score - SCORE_MIN) /
        (SCORE_MAX - SCORE_MIN)) ∧
    0 ≤ (scoreMatchup s).confidence ∧ (scoreMatchup s).confidence ≤ 100 ∧
    SCORE_MIN = -5 ∧ SCORE_MAX = 5 :=
  ⟨rfl, confidenceFrom_nonneg (rawScore s), confidenceFrom_le_100 (rawScore s), rfl, rfl⟩

/-- Claim C2, counterexample.  With all four special-teams fields present
(both teams: power-play 10, penalty-kill 90) the extractor returns 4/5 — the
absolute difference — while the claim's signed-difference formula gives -4/5;
and with only the home-PP/away-PK pairing present the extractor still returns
4/5 where the claim says the signal must be absent. -/
theorem C2_counterexample :
    (computeSignalsE mC standingsC2 none none envOk).map Signals.special_teams_mismatch
      = Except.ok (some (4/5)) ∧
    specialTeamsMismatchClaim (some 10) (some 90) (some 10) (some 90) = some (-(4/5)) ∧
    ((4 : ℚ)/5) ≠ -(4/5) ∧
    (computeSignalsE mC standingsC2b none none envOk).map Signals.special_teams_mismatch
      = Except.ok (some (4/5)) ∧
    specialTeamsMismatchClaim (some 10) (some 90) none none = none := by
  have habs : |(10 : ℚ) - 90| = 80 := by
    rw [show (10 : ℚ) - 90 = -80 by norm_num, abs_neg, abs_of_nonneg] <;> norm_num
  refine ⟨?_, ?_, by norm_num, ?_, rfl⟩
  · have h1 : (computeSignalsE mC standingsC2 none none envOk).map
        Signals.special_teams_mismatch
        = Except.ok (specialTeamsMismatch (some 10) (some 90) (some 10) (some 90)) := rfl
    rw [h1, specialTeamsMismatch_eq]
    simp only [habs, max_self]
    norm_num
  · simp only [specialTeamsMismatchClaim, max_self]
    norm_num
  · have h1 : (computeSignalsE mC standingsC2b none none envOk).map
        Signals.special_teams_mismatch
        = Except.ok (specialTeamsMismatch (some 10) (some 90) none none) := rfl
    rw [h1, specialTeamsMismatch_eq]
    simp only [habs]
    norm_num

/-- Claim C2, amended: the extractor's special_teams_mismatch is the maximum
of the available candidates |home PP% − away PK%|/100 and
|away PP% − home PK%|/100 — each absolute, each computed only when both of its
two fields are present — and it is absent exactly when neither pairing is
complete. -/
theorem C2_special_teams_amended (game : Matchup) (standings : ℤ → Option StandingRec)
    (odds : Option (Option ℚ)) (xg : Option (ℤ → Option ℚ)) (env : FetchEnv) (s : Signals)
    (hok : computeSignalsE game standings odds xg env = .ok s) :
    s.special_teams_mismatch =
      (match (standings game.home).bind StandingRec.ppPct,
             (standings game.away).bind StandingRec.pkPct,
             (standings game.away).bind StandingRec.ppPct,
             (standings game.home).bind StandingRec.pkPct with
       | some a, some b, some c, some d => some (max (|a - b| / 100) (|c - d| / 100))
       | some a, some b, _, _ => some (|a - b| / 100)
       | _, _, some c, some d => some (|c - d| / 100)
       | _, _, _, _ => none) := by
  rcases env with ⟨hp, hf, rs, lga, lgh, dra, drh⟩
  obtain ⟨h2h, la, lh, rfl⟩ := computeSignalsE_shape _ _ _ _ _ _ _ _ _ _ _ _ hok
  exact specialTeamsMismatch_eq ((standings game.home).bind StandingRec.ppPct)
    ((standings game.away).bind StandingRec.pkPct)
    ((standings game.away).bind StandingRec.ppPct)
    ((standings game.home).bind StandingRec.pkPct)

/-- Witness for the amended C2: on the concrete `standingsC2` snapshot the
extractor's special_teams_mismatch evaluates to 4/5 via the amended formula. -/
theorem C2_special_teams_amended_witness : sC2.special_teams_mismatch = some (4/5) := by
  have h := C2_special_teams_amended mC standingsC2 none none envOk sC2 (by rfl)
  rw [h]
  have habs : |(10 : ℚ) - 90| = 80 := by
    rw [show (10 : ℚ) - 90 = -80 by norm_num, abs_neg, abs_of_nonneg] <;> norm_num
  have hpp : (standingsC2 mC.home).bind StandingRec.ppPct = some 10 := rfl
  have hpk : (standingsC2 mC.away).bind StandingRec.pkPct = some 90 := rfl
  have hpp2 : (standingsC2 mC.away).bind StandingRec.ppPct = some 10 := rfl
  have hpk2 : (standingsC2 mC.home).bind StandingRec.pkPct = some 90 := rfl
  rw [hpp, hpk, hpp2, hpk2]
  simp only [habs, max_self]
  norm_num

/-- Claim C3: the raw score is dampened by the multiplier 0.85 = 17/20 — as
the last step, applied to the entire accumulated additive sum including any
negative contributions — exactly when both teams' recent-form OT rates
strictly exceed the both-high threshold 0.15 = 3/20; otherwise the score is
the additive sum unchanged. -/
theorem C3_dampening_iff_both_high (s : Signals) :
    rawScore s =
      (if s.team_OT_rate_last_15_away > TEAM_OT_RATE_BOTH_HIGH_THRESHOLD
          ∧ s.team_OT_rate_last_15_home > TEAM_OT_RATE_BOTH_HIGH_THRESHOLD
       then additiveScore s * WEIGHTS.both_teams_high_ot_multiplier
       else additiveScore s) ∧
    WEIGHTS.both_teams_high_ot_multiplier = 17/20 ∧
    TEAM_OT_RATE_BOTH_HIGH_THRESHOLD = 3/20 :=
  ⟨rawScore_eq s, rfl, rfl⟩

/-- Claim C4: holding every other field fixed, moving head2head_OT_rate from
at-or-below the penalty threshold 0.20 to above it cannot increase the
confidence. -/
theorem C4_head2head_confidence_monotone (s : Signals) (lo hi : ℚ)
    (hlo : lo ≤ H2H_OT_RATE_PENALTY_THRESHOLD)
    (hhi : hi > H2H_OT_RATE_PENALTY_THRESHOLD) :
    (scoreMatchup { s with head2head_OT_rate := hi }).confidence ≤
      (scoreMatchup { s with head2head_OT_rate := lo }).confidence :=
  confidenceFrom_mono (rawScore_update_le s hlo hhi)

/-- Witness for C4 at the unit test's concrete inputs: rate 0.30 against rate
0.10 on the `make_signals` signal set. -/
theorem C4_head2head_confidence_monotone_witness :
    (scoreMatchup { testSignals (1/10) with head2head_OT_rate := 3/10 }).confidence ≤
      (scoreMatchup { testSignals (1/10) with head2head_OT_rate := 1/10 }).confidence :=
  C4_head2head_confidence_monotone (testSignals (1/10)) (1/10) (3/10)
    (by norm_num [H2H_OT_RATE_PENALTY_THRESHOLD])
    (by norm_num [H2H_OT_RATE_PENALTY_THRESHOLD])

/-- Claim C5: the evenly_matched flag of every extractor output is true
exactly when the strict comparisons hold — standings gap < 6 and
regulation-win difference < 0.05, plus shot-share difference < 0.06 only when
that metric is present; when it is absent only the first two conditions are
evaluated. -/
theorem C5_evenly_matched_conditions (game : Matchup) (standings : ℤ → Option StandingRec)
    (odds : Option (Option ℚ)) (xg : Option (ℤ → Option ℚ)) (env : FetchEnv) (s : Signals)
    (hok : computeSignalsE game standings odds xg env = .ok s) :
    s.evenly_matched =
      (match s.xg_share_diff with
       | some x =>
           decide (s.standings_gap < EVENLY_MATCHED_STANDINGS_GAP_MAX_POINTS) &&
           decide (s.regulation_win_pct_diff < EVENLY_MATCHED_REG_WIN_PCT_DIFF_MAX) &&
           decide (x < EVENLY_MATCHED_XG_SHARE_DIFF_MAX)
       | none =>
           decide (s.standings_gap < EVENLY_MATCHED_STANDINGS_GAP_MAX_POINTS) &&
           decide (s.regulation_win_pct_diff < EVENLY_MATCHED_REG_WIN_PCT_DIFF_MAX)) ∧
    EVENLY_MATCHED_STANDINGS_GAP_MAX_POINTS = 6 ∧
    EVENLY_MATCHED_REG_WIN_PCT_DIFF_MAX = 1/20 ∧
    EVENLY_MATCHED_XG_SHARE_DIFF_MAX = 3/50 := by
  refine ⟨?_, rfl, rfl, rfl⟩
  rcases env with ⟨hp, hf, rs, lga, lgh, dra, drh⟩
  obtain ⟨h2h, la, lh, rfl⟩ := computeSignalsE_shape _ _ _ _ _ _ _ _ _ _ _ _ hok
  rfl

/-- Witness for C5: on a run with no shot-share metric, a zero standings gap
and a zero regulation-win difference, the two-condition evaluation yields
`true`. -/
theorem C5_evenly_matched_conditions_witness : sC.evenly_matched = true := by
  have h := C5_evenly_matched_conditions mC standingsC none none envOk sC (by rfl)
  rw [h.1]
  have hx : sC.xg_share_diff = none := by rw [sC_core]; rfl
  have hg : sC.standings_gap = 0 := by rw [sC_core]; rfl
  have hr : sC.regulation_win_pct_diff = 0 := by
    rw [sC_core]
    simp [computeSignalsCore, standingsC, _regulation_win_pct, mC]
  rw [hx, hg, hr]
  simp [EVENLY_MATCHED_STANDINGS_GAP_MAX_POINTS, EVENLY_MATCHED_REG_WIN_PCT_DIFF_MAX]

/-- Claim C6: the OT rate over any game sample is the count of games that
went to overtime — more than 3 periods or the shootout flag set — divided by
the sample size, and it is the defined value 0 on the empty sample. -/
theorem C6_ot_rate_formula (games : List Game) :
    _compute_ot_rate_from_games games =
      (if games.length = 0 then 0
       else (games.countP (fun g => decide (3 < g.periods) || g.hasShootout) : ℚ) /
         (games.length : ℚ)) ∧
    _compute_ot_rate_from_games [] = 0 := by
  constructor
  · unfold _compute_ot_rate_from_games _pct
    rw [ot_fold_counts games 0 0]
    simp only [Nat.zero_add, zero_add]
    by_cases h : games.length = 0
    · simp [h, List.length_eq_zero.mp h]
    · rw [if_neg (by exact_mod_cast h), if_neg h]
  · rfl

/-- Claim C7, counterexample: an unrecoverable failure of the head-to-head
fetch, or of a per-team recent-games fetch, is not caught anywhere inside
`compute_signals_for_matchup` and propagates to the caller. -/
theorem C7_counterexample :
    computeSignalsE mC standingsC none none { envOk with h2hPrimary := .error () }
      = .error () ∧
    computeSignalsE mC standingsC none none { envOk with lastGamesAway := .error () }
      = .error () :=
  ⟨rfl, rfl⟩

/-- Claim C7, amended: failures of the rivalry scan and of the two days-rest
lookups are caught (inside their data_fetcher helpers) and degrade those
sub-signals to their neutral defaults — rivalry flag false, days rest null —
without aborting the computation; whereas head-to-head and recent-games fetch
failures propagate (see the counterexample). -/
theorem C7_fetch_failures_amended (game : Matchup) (standings : ℤ → Option StandingRec)
    (odds : Option (Option ℚ)) (xg : Option (ℤ → Option ℚ)) (l1 l2 la lh : List Game) :
    ((computeSignalsE game standings odds xg
        ⟨.ok l1, .ok l2, .error (), .ok la, .ok lh, .error (), .error ()⟩).map
          Signals.playoff_rivalry_flag = Except.ok false) ∧
    ((computeSignalsE game standings odds xg
        ⟨.ok l1, .ok l2, .error (), .ok la, .ok lh, .error (), .error ()⟩).map
          Signals.days_rest_away = Except.ok none) ∧
    ((computeSignalsE game standings odds xg
        ⟨.ok l1, .ok l2, .error (), .ok la, .ok lh, .error (), .error ()⟩).map
          Signals.days_rest_home = Except.ok none) := by
  refine ⟨?_, ?_, ?_⟩ <;>
    · simp only [computeSignalsE, Bind.bind, Except.bind, Pure.pure, Except.pure]
      split <;> rfl

/-- Claim C8: `score_matchup` returns the input signal set with exactly the
keys `score` (the unclipped raw value) and `confidence` added; every original
field keeps its value, and the input itself — consumed by a pure function — is
unchanged. -/
theorem C8_score_matchup_frame (s : Signals) :
    (scoreMatchup s).toSignals = s ∧ (scoreMatchup s).score = rawScore s ∧
    (scoreMatchup s).confidence = confidenceFrom (rawScore s) :=
  ⟨rfl, rfl, rfl⟩

/-- Claim C9: `should_skip` returns true iff the global flag is enabled and
(evenly_matched or playoff_rivalry_flag or head2head_OT_rate above the
penalty threshold); in particular it is false whenever the flag is disabled,
and the repository configures the flag to false. -/
theorem C9_should_skip_iff (flag : Bool) (s : Signals) :
    shouldSkip flag s =
      (flag && (s.evenly_matched || s.playoff_rivalry_flag ||
        decide (s.head2head_OT_rate > H2H_OT_RATE_PENALTY_THRESHOLD))) ∧
    shouldSkip false s = false ∧ SKIP_IF_RIVALRY_OR_EVEN = false := by
  refine ⟨?_, rfl, rfl⟩
  cases flag <;> simp [shouldSkip]

/-- Claim C10: every successful extractor output has data_confidence in
{50, 62, 75, 88, 100}, hence at least 50, because four of the eight checklist
items are true for every input. -/
theorem C10_data_confidence_range (game : Matchup) (standings : ℤ → Option StandingRec)
    (odds : Option (Option ℚ)) (xg : Option (ℤ → Option ℚ)) (env : FetchEnv) (s : Signals)
    (hok : computeSignalsE game standings odds xg env = .ok s) :
    (s.data_confidence = 50 ∨ s.data_confidence = 62 ∨ s.data_confidence = 75 ∨
     s.data_confidence = 88 ∨ s.data_confidence = 100) ∧ 50 ≤ s.data_confidence := by
  rcases env with ⟨hp, hf, rs, lga, lgh, dra, drh⟩
  obtain ⟨h2h, la, lh, rfl⟩ := computeSignalsE_shape _ _ _ _ _ _ _ _ _ _ _ _ hok
  exact dataConfidence_range h2h lh la _ _ _ _

/-- Witness for C10 at the concrete all-neutral run. -/
theorem C10_data_confidence_range_witness :
    (sC.data_confidence = 50 ∨ sC.data_confidence = 62 ∨ sC.data_confidence = 75 ∨
     sC.data_confidence = 88 ∨ sC.data_confidence = 100) ∧ 50 ≤ sC.data_confidence :=
  C10_data_confidence_range mC standingsC none none envOk sC (by rfl)

end NHL
